import Mathlib

/-!
Verification of the hospital-management backend (Express/Mongoose).

Shallow embedding conventions:
* "HH:MM" time-of-day strings stay strings; `parseTimeToMinutes` mirrors
  `time.split(':').map(Number)` followed by `h * 60 + m`.
* Dates are days since the Unix epoch (a `Nat`); `jsWeekdayName` mirrors
  `new Date(date).toLocaleString('en', { weekday: 'long' }).toLowerCase()`
  (day 0, 1970-01-01, was a Thursday).
* Mongo documents become structures; a collection is a `List` of documents.
* The `while` loop of `generateTimeSlots` is embedded with explicit fuel,
  returning `none` when the fuel runs out (i.e. on divergence).
* JS floating-point arithmetic on rating averages is modelled over `Rat`.
-/

namespace Hospital

/-- `Number(s)` on a digit string; `Number('') = 0`.  (NaN results for
malformed inputs are out of scope: all claims restrict to digit strings.) -/
def jsNumber (s : String) : Nat :=
  if s.data.all Char.isDigit then
    s.data.foldl (fun n c => n * 10 + (c.toNat - '0'.toNat)) 0
  else 0

/-- Splitter on a separator character, structurally recursive over the
character list (so that it evaluates by kernel reduction). -/
def jsSplitAux (sep : Char) : List Char → List Char → List String
  | [], acc => [String.mk acc.reverse]
  | c :: cs, acc =>
    if c = sep then String.mk acc.reverse :: jsSplitAux sep cs []
    else jsSplitAux sep cs (c :: acc)

/-- `s.split(sep)` for a one-character separator. -/
def jsSplit (s : String) (sep : Char) : List String :=
  jsSplitAux sep s.data []

/-- `const [h, m] = time.split(':').map(Number); h * 60 + m`. -/
def parseTimeToMinutes (time : String) : Nat :=
  match (jsSplit time ':').map jsNumber with
  | h :: m :: _ => h * 60 + m
  | [h] => h * 60
  | [] => 0

/-- JS weekday names indexed by `Date.prototype.getDay` (0 = Sunday). -/
def weekdayNames : List String :=
  ["sunday", "monday", "tuesday", "wednesday", "thursday", "friday", "saturday"]

/-- `new Date(d).toLocaleString('en', { weekday: 'long' }).toLowerCase()` for a
date given as days since the Unix epoch (1970-01-01 was a Thursday). -/
def jsWeekdayName (epochDay : Nat) : String :=
  weekdayNames.getD ((4 + epochDay) % 7) "sunday"

/-- `s.padStart(2, '0')`. -/
def padStart2 (s : String) : String :=
  if s.length ≥ 2 then s
  else if s.length = 1 then "0" ++ s
  else "00"

/-- `` `${hour.toString().padStart(2,'0')}:${minute.toString().padStart(2,'0')}` ``
for a time expressed in minutes since midnight. -/
def minutesToTimeString (t : Nat) : String :=
  padStart2 (toString (t / 60)) ++ ":" ++ padStart2 (toString (t % 60))

/-- An appointment document (the fields used by `findConflicts` and the
appointment write routes).  `duration` is `Option Nat`: the source guards it
with `apt.duration || 30`. -/
structure Appointment where
  theId : Nat
  doctorId : Nat
  appointmentDate : Nat
  appointmentTime : String
  duration : Option Nat
  status : String
  deriving DecidableEq, Repr

/-- `apt.duration || 30` (JS: `undefined`/`null`/`0` are all falsy). -/
def durationOr30 (d : Option Nat) : Nat :=
  match d with
  | none => 30
  | some n => if n = 0 then 30 else n

/-- The statuses treated as live bookings by `findConflicts`:
`{ $in: ['scheduled', 'confirmed', 'checked-in', 'in-progress'] }`. -/
def activeStatuses : List String :=
  ["scheduled", "confirmed", "checked-in", "in-progress"]

/-- The Mongo `find` filter built by `appointmentSchema.statics.findConflicts`:
same `doctorId`, same `appointmentDate`, active status, and `_id ≠` the
excluded id when one is given. -/
def conflictFilter (doctorId date : Nat) (excludeAppointmentId : Option Nat)
    (apt : Appointment) : Bool :=
  apt.doctorId == doctorId && apt.appointmentDate == date &&
    activeStatuses.contains apt.status &&
    (match excludeAppointmentId with
     | none => true
     | some ex => apt.theId != ex)

/-- `appointmentSchema.statics.findConflicts(doctorId, date, time, duration = 30,
excludeAppointmentId = null)` over a stored collection `appointments`: the Mongo
filter followed by the JS interval-overlap filter
`startTime < aptEndTime && endTime > aptStartTime`. -/
def findConflicts (doctorId date : Nat) (time : String) (duration : Nat := 30)
    (excludeAppointmentId : Option Nat := none)
    (appointments : List Appointment) : List Appointment :=
  let startTime := parseTimeToMinutes time
  let endTime := startTime + duration
  (appointments.filter (conflictFilter doctorId date excludeAppointmentId)).filter
    (fun apt =>
      let aptStartTime := parseTimeToMinutes apt.appointmentTime
      let aptEndTime := aptStartTime + durationOr30 apt.duration
      decide (startTime < aptEndTime) && decide (endTime > aptStartTime))

/-- The `availability` sub-document of `doctorSchema`.  The four time fields
are "HH:MM" strings, as stored; `slotDuration` is minutes (schema enum
`[15, 20, 30, 45, 60]`, default 30). -/
structure Availability where
  workingDays : List String
  startTime : String
  endTime : String
  breakStart : String
  breakEnd : String
  slotDuration : Nat
  deriving DecidableEq, Repr

/-- The fields of a doctor document used by `checkAvailability`. -/
structure Doctor where
  isAvailable : Bool
  status : String
  availability : Availability
  deriving DecidableEq, Repr

/-- The `while (currentTime + slotDuration <= endTime)` loop of
`generateTimeSlots`, with explicit fuel; `none` models divergence.  The body:
if `breakStart <= currentTime < breakEnd` jump to `breakEnd` and `continue`,
otherwise emit `currentTime` and advance by `slotDuration`.  (The source
formats each emitted time on the spot; here the formatting
`minutesToTimeString` is mapped over the emitted minutes afterwards.) -/
def slotsLoop (slotDuration endTime breakStart breakEnd : Nat) :
    Nat → Nat → Option (List Nat)
  | _, 0 => none
  | currentTime, fuel + 1 =>
    if currentTime + slotDuration ≤ endTime then
      if breakStart ≤ currentTime ∧ currentTime < breakEnd then
        slotsLoop slotDuration endTime breakStart breakEnd breakEnd fuel
      else
        (slotsLoop slotDuration endTime breakStart breakEnd
            (currentTime + slotDuration) fuel).map (currentTime :: ·)
    else
      some []

/-- `doctorSchema.methods.generateTimeSlots(date)`: empty list when the date's
weekday is not a working day, otherwise the loop over
`[startTime, endTime)` minus the break window, each slot formatted as
zero-padded "HH:MM".  `endTime + 1` units of fuel bound the loop's iteration
count whenever `slotDuration > 0` (proved below); `none` models divergence. -/
def generateTimeSlots (avail : Availability) (date : Nat) : Option (List String) :=
  if ¬ avail.workingDays.contains (jsWeekdayName date) then
    some []
  else
    let slotDuration := avail.slotDuration
    let currentTime := parseTimeToMinutes avail.startTime
    let endTime := parseTimeToMinutes avail.endTime
    let breakStart := parseTimeToMinutes avail.breakStart
    let breakEnd := parseTimeToMinutes avail.breakEnd
    (slotsLoop slotDuration endTime breakStart breakEnd currentTime
        (endTime + 1)).map (List.map minutesToTimeString)

/-- Result shape of `checkAvailability`: `{ available, reason? }`. -/
structure CheckResult where
  available : Bool
  reason : Option String
  deriving DecidableEq, Repr

/-- `doctorSchema.methods.checkAvailability(date, time)`. -/
def checkAvailability (doc : Doctor) (date : Nat) (time : String) : CheckResult :=
  if ¬ doc.isAvailable ∨ doc.status ≠ "active" then
    ⟨false, some "Doctor is not available"⟩
  else if ¬ doc.availability.workingDays.contains (jsWeekdayName date) then
    ⟨false, some "Doctor does not work on this day"⟩
  else
    let appointmentTime := parseTimeToMinutes time
    let workStart := parseTimeToMinutes doc.availability.startTime
    let workEnd := parseTimeToMinutes doc.availability.endTime
    let breakStart := parseTimeToMinutes doc.availability.breakStart
    let breakEnd := parseTimeToMinutes doc.availability.breakEnd
    if appointmentTime < workStart ∨ appointmentTime ≥ workEnd then
      ⟨false, some "Outside working hours"⟩
    else if breakStart ≤ appointmentTime ∧ appointmentTime < breakEnd then
      ⟨false, some "During break time"⟩
    else
      ⟨true, none⟩

/-- The loop of `generateTimeSlots` terminates within `fuel` iterations as soon
as `fuel` exceeds `endTime - currentTime`, provided `slotDuration` is positive:
each iteration strictly increases `currentTime`, either by `slotDuration` or by
jumping to `breakEnd` (which exceeds `currentTime` whenever the jump is taken). -/
theorem slotsLoop_isSome (d e bS bE : Nat) (hd : 0 < d) :
    ∀ fuel cur, e - cur < fuel → (slotsLoop d e bS bE cur fuel).isSome := by
  intro fuel
  induction fuel with
  | zero => intro cur h; omega
  | succ n ih =>
    intro cur h
    rw [slotsLoop]
    split
    · split
      · rename_i hguard hbreak
        exact ih bE (by omega)
      · rename_i hguard hbreak
        simpa using ih (cur + d) (by omega)
    · rfl

/-- Soundness of the loop of `generateTimeSlots`: every emitted minute value is
at least the entry time, fits before `endTime` with a full slot, avoids the
break window, and successive values are at least `slotDuration` apart. -/
theorem slotsLoop_sound (d e bS bE : Nat) :
    ∀ fuel cur l, slotsLoop d e bS bE cur fuel = some l →
      (∀ x ∈ l, cur ≤ x ∧ x + d ≤ e ∧ ¬(bS ≤ x ∧ x < bE)) ∧
      List.Chain' (fun a b => a + d ≤ b) l := by
  intro fuel
  induction fuel with
  | zero => intro cur l h; simp [slotsLoop] at h
  | succ n ih =>
    intro cur l h
    rw [slotsLoop] at h
    split at h
    · split at h
      · rename_i hguard hbreak
        obtain ⟨h1, h2⟩ := ih bE l h
        refine ⟨fun x hx => ?_, h2⟩
        obtain ⟨hx1, hx2, hx3⟩ := h1 x hx
        exact ⟨by omega, hx2, hx3⟩
      · rename_i hguard hbreak
        rw [Option.map_eq_some'] at h
        obtain ⟨l', hrec, hl⟩ := h
        obtain ⟨h1, h2⟩ := ih (cur + d) l' hrec
        subst hl
        constructor
        · intro x hx
          rcases List.mem_cons.mp hx with hx | hx
          · subst hx
            exact ⟨le_refl _, hguard, hbreak⟩
          · obtain ⟨hx1, hx2, hx3⟩ := h1 x hx
            exact ⟨by omega, hx2, hx3⟩
        · refine h2.cons' fun y hy => ?_
          exact (h1 y (List.mem_of_mem_head? hy)).1
    · cases h
      exact ⟨by simp, by simp⟩

end Hospital

open Hospital

/-- **C1.** `findConflicts doctorId date time duration exclude appointments`
returns exactly the stored appointments with the given `doctorId`, the same
`appointmentDate`, a status among scheduled/confirmed/checked-in/in-progress,
an id different from the excluded one when given, and whose half-open minute
interval `[aptStart, aptStart + aptDuration)` overlaps the requested interval
`[start, start + duration)`. -/
theorem findConflicts_mem_iff (doctorId date : Nat) (time : String)
    (duration : Nat) (excludeAppointmentId : Option Nat)
    (appointments : List Appointment) (apt : Appointment) :
    apt ∈ findConflicts doctorId date time duration excludeAppointmentId
        appointments ↔
      apt ∈ appointments ∧
      apt.doctorId = doctorId ∧
      apt.appointmentDate = date ∧
      apt.status ∈ activeStatuses ∧
      (∀ ex, excludeAppointmentId = some ex → apt.theId ≠ ex) ∧
      parseTimeToMinutes time <
        parseTimeToMinutes apt.appointmentTime + durationOr30 apt.duration ∧
      parseTimeToMinutes time + duration > parseTimeToMinutes apt.appointmentTime := by
  cases excludeAppointmentId with
  | none =>
    simp only [findConflicts, conflictFilter, List.mem_filter, Bool.and_eq_true,
      beq_iff_eq, bne_iff_ne, decide_eq_true_eq, List.elem_iff]
    constructor
    · rintro ⟨⟨hmem, ⟨⟨hdoc, hdate⟩, hstat⟩, -⟩, hov1, hov2⟩
      exact ⟨hmem, hdoc, hdate, hstat, by simp, hov1, hov2⟩
    · rintro ⟨hmem, hdoc, hdate, hstat, -, hov1, hov2⟩
      exact ⟨⟨hmem, ⟨⟨hdoc, hdate⟩, hstat⟩, trivial⟩, hov1, hov2⟩
  | some ex =>
    simp only [findConflicts, conflictFilter, List.mem_filter, Bool.and_eq_true,
      beq_iff_eq, bne_iff_ne, decide_eq_true_eq, List.elem_iff]
    constructor
    · rintro ⟨⟨hmem, ⟨⟨hdoc, hdate⟩, hstat⟩, hex⟩, hov1, hov2⟩
      exact ⟨hmem, hdoc, hdate, hstat, fun e he => by cases he; exact hex, hov1, hov2⟩
    · rintro ⟨hmem, hdoc, hdate, hstat, hex, hov1, hov2⟩
      exact ⟨⟨hmem, ⟨⟨hdoc, hdate⟩, hstat⟩, hex ex rfl⟩, hov1, hov2⟩

/-- **C4.** `checkAvailability(date, time)` returns `available: true` exactly
when the doctor is available and active, the date's weekday is a working day,
and the requested time `t` satisfies `workStart ≤ t < workEnd` and
`¬(breakStart ≤ t < breakEnd)`; in every other case it returns
`available: false` together with a reason string. -/
theorem checkAvailability_spec (doc : Doctor) (date : Nat) (time : String) :
    ((checkAvailability doc date time).available = true ↔
      (doc.isAvailable = true ∧ doc.status = "active" ∧
       jsWeekdayName date ∈ doc.availability.workingDays ∧
       parseTimeToMinutes doc.availability.startTime ≤ parseTimeToMinutes time ∧
       parseTimeToMinutes time < parseTimeToMinutes doc.availability.endTime ∧
       ¬(parseTimeToMinutes doc.availability.breakStart ≤ parseTimeToMinutes time ∧
         parseTimeToMinutes time < parseTimeToMinutes doc.availability.breakEnd))) ∧
    ((checkAvailability doc date time).available = false →
      ((checkAvailability doc date time).reason).isSome) := by
  unfold checkAvailability
  dsimp only
  split_ifs with h1 h2 h3 h4
  · refine ⟨⟨fun h => by simp at h, fun h => ?_⟩, fun _ => rfl⟩
    rcases h1 with h1 | h1
    · exact absurd h.1 h1
    · exact absurd h.2.1 h1
  · refine ⟨⟨fun h => by simp at h, fun h => ?_⟩, fun _ => rfl⟩
    obtain ⟨-, -, -, hle, hlt, -⟩ := h
    omega
  · refine ⟨⟨fun h => by simp at h, fun h => ?_⟩, fun _ => rfl⟩
    exact h.2.2.2.2.2 h4
  · refine ⟨⟨fun _ => ?_, fun _ => rfl⟩, fun h => by simp at h⟩
    push_neg at h1 h3
    exact ⟨h1.1, h1.2, List.elem_iff.mp h2, by omega, by omega, h4⟩
  · refine ⟨⟨fun h => by simp at h, fun h => ?_⟩, fun _ => rfl⟩
    exact h2 (List.elem_iff.mpr h.2.2.1)

/-- Witness for C4: a doctor working Thursdays 08:00–17:00 with a
13:00–14:00 break is available at 09:15 on epoch day 0 (a Thursday). -/
theorem checkAvailability_spec_witness :
    (checkAvailability
        ⟨true, "active", ⟨["thursday"], "08:00", "17:00", "13:00", "14:00", 30⟩⟩
        0 "09:15").available = true :=
  (checkAvailability_spec
      ⟨true, "active", ⟨["thursday"], "08:00", "17:00", "13:00", "14:00", 30⟩⟩
      0 "09:15").1.mpr (by decide)

/-- **C3.** `generateTimeSlots` returns the empty list when the date's weekday
is not a working day; otherwise every returned slot is the zero-padded "HH:MM"
rendering of a minute value `t` with `startTime ≤ t`,
`t + slotDuration ≤ endTime`, and `t` outside the break window. -/
theorem generateTimeSlots_spec (avail : Availability) (date : Nat)
    (slots : List String) (h : generateTimeSlots avail date = some slots) :
    (jsWeekdayName date ∉ avail.workingDays → slots = []) ∧
    (∀ s ∈ slots, ∃ t : Nat,
      s = minutesToTimeString t ∧
      parseTimeToMinutes avail.startTime ≤ t ∧
      t + avail.slotDuration ≤ parseTimeToMinutes avail.endTime ∧
      ¬(parseTimeToMinutes avail.breakStart ≤ t ∧
        t < parseTimeToMinutes avail.breakEnd)) := by
  unfold generateTimeSlots at h
  split at h
  · cases h
    exact ⟨fun _ => rfl, by simp⟩
  · rename_i hday
    rw [Option.map_eq_some'] at h
    obtain ⟨l, hl, hs⟩ := h
    obtain ⟨h1, -⟩ := slotsLoop_sound _ _ _ _ _ _ _ hl
    constructor
    · intro hmem
      exact absurd (List.elem_iff.mp (not_not.mp hday)) hmem
    · intro s hsmem
      rw [← hs] at hsmem
      obtain ⟨t, htl, rfl⟩ := List.mem_map.mp hsmem
      obtain ⟨ht1, ht2, ht3⟩ := h1 t htl
      exact ⟨t, rfl, ht1, ht2, ht3⟩

/-- Witness for C3: Thursdays 08:00–09:30 with a 08:30–09:00 break and
30-minute slots yield slots 08:00 and 09:00 on epoch day 0 (a Thursday). -/
theorem generateTimeSlots_spec_witness :
    (generateTimeSlots ⟨["thursday"], "08:00", "09:30", "08:30", "09:00", 30⟩ 0 =
        some ["08:00", "09:00"]) ∧
    ((jsWeekdayName 0 ∉
        (⟨["thursday"], "08:00", "09:30", "08:30", "09:00", 30⟩ : Availability).workingDays →
        (["08:00", "09:00"] : List String) = []) ∧
     (∀ s ∈ (["08:00", "09:00"] : List String), ∃ t : Nat,
       s = minutesToTimeString t ∧
       parseTimeToMinutes "08:00" ≤ t ∧
       t + 30 ≤ parseTimeToMinutes "09:30" ∧
       ¬(parseTimeToMinutes "08:30" ≤ t ∧ t < parseTimeToMinutes "09:00"))) :=
  ⟨by decide,
   generateTimeSlots_spec ⟨["thursday"], "08:00", "09:30", "08:30", "09:00", 30⟩ 0
     ["08:00", "09:00"] (by decide)⟩

/-- **C9.** With positive `slotDuration`, the slot list produced by
`generateTimeSlots` is the formatting of a strictly increasing list of minute
values whose consecutive entries differ by at least `slotDuration`, so the
implied intervals `[s, s + slotDuration)` are pairwise disjoint. -/
theorem generateTimeSlots_disjoint (avail : Availability) (date : Nat)
    (slots : List String) (hd : 0 < avail.slotDuration)
    (h : generateTimeSlots avail date = some slots) :
    ∃ l : List Nat, slots = l.map minutesToTimeString ∧
      List.Chain' (fun a b => a < b ∧ a + avail.slotDuration ≤ b) l ∧
      List.Pairwise (fun a b => a + avail.slotDuration ≤ b) l := by
  unfold generateTimeSlots at h
  split at h
  · cases h
    exact ⟨[], by simp, by simp, by simp⟩
  · rw [Option.map_eq_some'] at h
    obtain ⟨l, hl, hs⟩ := h
    obtain ⟨-, h2⟩ := slotsLoop_sound _ _ _ _ _ _ _ hl
    refine ⟨l, hs.symm, ?_, ?_⟩
    · exact h2.imp fun {a b} hab => ⟨by omega, hab⟩
    · haveI : IsTrans Nat (fun a b => a + avail.slotDuration ≤ b) :=
        ⟨fun a b c hab hbc => by omega⟩
      exact List.chain'_iff_pairwise.mp h2

/-- Witness for C9 at the same concrete availability as the C3 witness:
the minute list is `[480, 540]`. -/
theorem generateTimeSlots_disjoint_witness :
    (0 < (30 : Nat)) ∧
    (generateTimeSlots ⟨["thursday"], "08:00", "09:30", "08:30", "09:00", 30⟩ 0 =
        some ["08:00", "09:00"]) ∧
    (∃ l : List Nat, (["08:00", "09:00"] : List String) = l.map minutesToTimeString ∧
      List.Chain' (fun a b => a < b ∧ a + 30 ≤ b) l ∧
      List.Pairwise (fun a b => a + 30 ≤ b) l) :=
  ⟨by decide, by decide,
   generateTimeSlots_disjoint ⟨["thursday"], "08:00", "09:30", "08:30", "09:00", 30⟩ 0
     ["08:00", "09:00"] (by decide) (by decide)⟩

/-- **C10.** For every schema-permitted `slotDuration` (15, 20, 30, 45 or 60
minutes), the `generateTimeSlots` loop terminates: `endTime + 1` units of fuel
always suffice, because every iteration strictly increases `currentTime`. -/
theorem generateTimeSlots_terminates (avail : Availability) (date : Nat)
    (hd : avail.slotDuration ∈ ([15, 20, 30, 45, 60] : List Nat)) :
    (generateTimeSlots avail date).isSome := by
  have hd' : 0 < avail.slotDuration := by
    simp only [List.mem_cons, List.not_mem_nil, or_false] at hd
    omega
  unfold generateTimeSlots
  split
  · rfl
  · simpa using slotsLoop_isSome _ _ _ _ hd' _ _ (by omega)

/-- Witness for C10 at the concrete availability of the C3 witness. -/
theorem generateTimeSlots_terminates_witness :
    ((30 : Nat) ∈ ([15, 20, 30, 45, 60] : List Nat)) ∧
    (generateTimeSlots ⟨["thursday"], "08:00", "09:30", "08:30", "09:00", 30⟩ 0).isSome :=
  ⟨by decide,
   generateTimeSlots_terminates ⟨["thursday"], "08:00", "09:30", "08:30", "09:00", 30⟩ 0
     (by decide)⟩

namespace Hospital

/-- The `rating.breakdown` sub-document of `doctorSchema`: review counts for
one to five stars. -/
structure RatingBreakdown where
  star1 : Nat
  star2 : Nat
  star3 : Nat
  star4 : Nat
  star5 : Nat
  deriving DecidableEq, Repr

/-- `this.rating.breakdown[k]` for an integer key `k`. -/
def breakdownCount (b : RatingBreakdown) (k : Int) : Nat :=
  if k = 1 then b.star1
  else if k = 2 then b.star2
  else if k = 3 then b.star3
  else if k = 4 then b.star4
  else if k = 5 then b.star5
  else 0

/-- `this.rating.breakdown[newRating] += 1`. -/
def bumpBreakdown (b : RatingBreakdown) (k : Int) : RatingBreakdown :=
  if k = 1 then { b with star1 := b.star1 + 1 }
  else if k = 2 then { b with star2 := b.star2 + 1 }
  else if k = 3 then { b with star3 := b.star3 + 1 }
  else if k = 4 then { b with star4 := b.star4 + 1 }
  else if k = 5 then { b with star5 := b.star5 + 1 }
  else b

/-- `Object.values(this.rating.breakdown).reduce((sum, count) => sum + count, 0)`. -/
def breakdownTotal (b : RatingBreakdown) : Nat :=
  b.star1 + b.star2 + b.star3 + b.star4 + b.star5

/-- `Object.entries(this.rating.breakdown).reduce((sum, [rating, count]) =>
sum + parseInt(rating) * count, 0)`. -/
def breakdownScore (b : RatingBreakdown) : Nat :=
  1 * b.star1 + 2 * b.star2 + 3 * b.star3 + 4 * b.star4 + 5 * b.star5

/-- The schema setter `value => Math.round(value * 10) / 10` applied to
`totalScore / totalRatings`, computed exactly in tenths over naturals:
`Math.round(10s/t) = ⌊(20s + t) / (2t)⌋` for nonnegative arguments (JS
`Math.round` is `⌊x + 1/2⌋`).  The lemma `averageTenths_floor` below ties this
to the rational rounding formula. -/
def averageTenths (totalScore totalRatings : Nat) : Nat :=
  (20 * totalScore + totalRatings) / (2 * totalRatings)

/-- The `rating` sub-document: `average` is kept in exact tenths (the setter
rounds every stored value to one decimal place, so tenths lose nothing). -/
structure Rating where
  averageTenths : Nat
  totalReviews : Nat
  breakdown : RatingBreakdown
  deriving DecidableEq, Repr

/-- `doctorSchema.methods.updateRating(newRating)`: throw (modelled as
`Except.error`) outside 1..5; otherwise bump the breakdown, recompute the
totals from the updated breakdown, and store the rounded average. -/
def updateRating (rating : Rating) (newRating : Int) : Except String Rating :=
  if newRating < 1 ∨ newRating > 5 then
    Except.error "Rating must be between 1 and 5"
  else
    let b := bumpBreakdown rating.breakdown newRating
    let totalRatings := breakdownTotal b
    let totalScore := breakdownScore b
    Except.ok
      { averageTenths := averageTenths totalScore totalRatings,
        totalReviews := totalRatings,
        breakdown := b }

/-- A calendar date as seen through the JS `Date` getters `getFullYear()`,
`getMonth()` (0-based) and `getDate()` (1-based). -/
structure CalendarDate where
  year : Int
  month : Int
  day : Int
  deriving DecidableEq, Repr

/-- The `patientSchema.virtual('age')` getter, as a function of the current
date `today` and the stored `dateOfBirth` (`null` when absent). -/
def ageVirtual (today : CalendarDate) (dateOfBirth : Option CalendarDate) :
    Option Int :=
  match dateOfBirth with
  | none => none
  | some birthDate =>
    let age := today.year - birthDate.year
    let monthDiff := today.month - birthDate.month
    if monthDiff < 0 ∨ (monthDiff = 0 ∧ today.day < birthDate.day) then
      some (age - 1)
    else
      some age

end Hospital

/-- `averageTenths` computes exactly `⌊(s / t) * 10 + 1/2⌋`, i.e.
`Math.round((totalScore / totalRatings) * 10)` over the rationals. -/
theorem averageTenths_floor (s t : Nat) (ht : 0 < t) :
    (⌊(s : Rat) / (t : Rat) * 10 + 1 / 2⌋ : Int) = (averageTenths s t : Int) := by
  have ht' : (0 : Rat) < (t : Rat) := by exact_mod_cast ht
  have hx : (s : Rat) / (t : Rat) * 10 + 1 / 2 =
      ((20 * s + t : Nat) : Rat) / ((2 * t : Nat) : Rat) := by
    push_cast
    field_simp
    ring
  rw [hx, Int.floor_eq_iff]
  have hpos : (0 : Rat) < ((2 * t : Nat) : Rat) := by positivity
  constructor
  · rw [le_div_iff₀ hpos]
    have h1 : averageTenths s t * (2 * t) ≤ 20 * s + t := Nat.div_mul_le_self _ _
    exact_mod_cast h1
  · rw [div_lt_iff₀ hpos]
    have hd := Nat.div_add_mod (20 * s + t) (2 * t)
    have hm : (20 * s + t) % (2 * t) < 2 * t := Nat.mod_lt _ (by omega)
    have h2 : 20 * s + t < (averageTenths s t + 1) * (2 * t) := by
      unfold averageTenths
      calc 20 * s + t
          = 2 * t * ((20 * s + t) / (2 * t)) + (20 * s + t) % (2 * t) := hd.symm
        _ < 2 * t * ((20 * s + t) / (2 * t)) + 2 * t := Nat.add_lt_add_left hm _
        _ = ((20 * s + t) / (2 * t) + 1) * (2 * t) := by ring
    exact_mod_cast h2

/-- **C5.** `updateRating(r)` throws (leaving the rating unchanged) when
`r < 1` or `r > 5`; otherwise it increments `breakdown[r]` by one, sets
`totalReviews` to the sum of the five breakdown counts, and sets the average
to `(Σ k·breakdown[k]) / totalReviews` rounded to one decimal place by the
schema setter. -/
theorem updateRating_spec (rating : Rating) (r : Int) :
    (r < 1 ∨ 5 < r →
      updateRating rating r = Except.error "Rating must be between 1 and 5") ∧
    (1 ≤ r → r ≤ 5 →
      ∃ result, updateRating rating r = Except.ok result ∧
        breakdownCount result.breakdown r = breakdownCount rating.breakdown r + 1 ∧
        (∀ k : Int, 1 ≤ k → k ≤ 5 → k ≠ r →
          breakdownCount result.breakdown k = breakdownCount rating.breakdown k) ∧
        result.totalReviews = breakdownTotal result.breakdown ∧
        (result.averageTenths : Rat) / 10 =
          ((⌊(breakdownScore result.breakdown : Rat) /
              (result.totalReviews : Rat) * 10 + 1 / 2⌋ : Int) : Rat) / 10) := by
  constructor
  · intro h
    unfold updateRating
    rw [if_pos (by omega)]
  · intro h1 h5
    unfold updateRating
    rw [if_neg (by omega)]
    refine ⟨_, rfl, ?_, ?_, rfl, ?_⟩
    · interval_cases r <;> simp [bumpBreakdown, breakdownCount]
    · intro k hk1 hk5 hkr
      interval_cases r <;> interval_cases k <;>
        simp_all [bumpBreakdown, breakdownCount]
    · have htot : 0 < breakdownTotal (bumpBreakdown rating.breakdown r) := by
        interval_cases r <;> simp [bumpBreakdown, breakdownTotal]
      dsimp only
      rw [averageTenths_floor _ _ htot]
      push_cast
      rfl

/-- Witness for C5: rating 7 is rejected; rating 3 on a fresh doctor yields
one three-star review and the corresponding rounded average. -/
theorem updateRating_spec_witness :
    (updateRating ⟨0, 0, ⟨0, 0, 0, 0, 0⟩⟩ 7 =
      Except.error "Rating must be between 1 and 5") ∧
    (∃ result, updateRating ⟨0, 0, ⟨0, 0, 0, 0, 0⟩⟩ 3 = Except.ok result ∧
      breakdownCount result.breakdown 3 =
        breakdownCount (⟨0, 0, 0, 0, 0⟩ : RatingBreakdown) 3 + 1 ∧
      (∀ k : Int, 1 ≤ k → k ≤ 5 → k ≠ 3 →
        breakdownCount result.breakdown k =
          breakdownCount (⟨0, 0, 0, 0, 0⟩ : RatingBreakdown) k) ∧
      result.totalReviews = breakdownTotal result.breakdown ∧
      (result.averageTenths : Rat) / 10 =
        ((⌊(breakdownScore result.breakdown : Rat) /
            (result.totalReviews : Rat) * 10 + 1 / 2⌋ : Int) : Rat) / 10) :=
  ⟨(updateRating_spec ⟨0, 0, ⟨0, 0, 0, 0, 0⟩⟩ 7).1 (by omega),
   (updateRating_spec ⟨0, 0, ⟨0, 0, 0, 0, 0⟩⟩ 3).2 (by omega) (by omega)⟩

/-- **C8.** The patient `age` virtual is the calendar-year difference,
decremented by one when the birth month/day has not yet occurred in the
current year, and `null` when `dateOfBirth` is absent. -/
theorem ageVirtual_spec (today : CalendarDate) (birthDate : CalendarDate) :
    (ageVirtual today (some birthDate) =
      some (if today.month < birthDate.month ∨
              (today.month = birthDate.month ∧ today.day < birthDate.day) then
              today.year - birthDate.year - 1
            else today.year - birthDate.year)) ∧
    ageVirtual today none = none := by
  constructor
  · unfold ageVirtual
    dsimp only
    split_ifs with h1 h2 <;> first | rfl | (exfalso; omega)
  · rfl

namespace Hospital

/-- `s.toLowerCase()` (ASCII, as used for the email fields). -/
def jsToLower (s : String) : String :=
  String.mk (s.data.map Char.toLower)

/-- `s.trim()`: strip leading and trailing whitespace. -/
def jsTrim (s : String) : String :=
  String.mk
    (((s.data.dropWhile Char.isWhitespace).reverse.dropWhile
        Char.isWhitespace).reverse)

/-- The payload of a signed JWT as the backend uses it: a subject id and the
role claim. -/
structure TokenPayload where
  subjectId : String
  role : String
  deriving DecidableEq, Repr

/-- Outcome of an Express middleware: respond with an HTTP status, or call
`next()` with the verified user/patient attached to the request. -/
inductive AuthOutcome where
  | reject (status : Nat)
  | proceed (payload : TokenPayload)
  deriving DecidableEq, Repr

/-- `const token = authHeader && authHeader.split(' ')[1]` — `none` when the
header is missing, has no second word, or the second word is empty (all falsy
in JS). -/
def bearerToken (authHeader : Option String) : Option String :=
  match authHeader with
  | none => none
  | some h =>
    match (jsSplit h ' ')[1]? with
    | none => none
    | some "" => none
    | some t => some t

/-- `authenticateToken` from the patient routes: 401 without a token, 403 when
`jwt.verify` fails, otherwise `req.patient = patient; next()`.  `verify`
abstracts `jwt.verify(token, JWT_SECRET)`, returning the decoded payload or
`none` on an invalid or expired token. -/
def authenticateToken (verify : String → Option TokenPayload)
    (authHeader : Option String) : AuthOutcome :=
  match bearerToken authHeader with
  | none => AuthOutcome.reject 401
  | some token =>
    match verify token with
    | none => AuthOutcome.reject 403
    | some patient => AuthOutcome.proceed patient

/-- The doctor routes' `auth` middleware: a testing stub that ignores the
request entirely and installs a hardcoded user with role `user`. -/
def auth (authHeader : Option String) : AuthOutcome :=
  AuthOutcome.proceed ⟨"temp-user-id", "user"⟩

/-- The doctor routes' `adminAuth` middleware: a testing stub that ignores the
request entirely and installs a hardcoded user with role `admin`. -/
def adminAuth (authHeader : Option String) : AuthOutcome :=
  AuthOutcome.proceed ⟨"temp-admin-id", "admin"⟩

/-- The patient fields involved in duplicate detection and creation. -/
structure Patient where
  firstName : String
  lastName : String
  idNumber : String
  email : String
  deriving DecidableEq, Repr

/-- A create/register request body (the fields the routes read). -/
structure PatientRequest where
  firstName : String
  lastName : String
  dateOfBirth : String
  gender : String
  idNumber : String
  email : String
  phone : String
  address : String
  city : String
  deriving DecidableEq, Repr

/-- Saving through `patientSchema`: the schema applies `lowercase: true,
trim: true` to `email` (no transform on `idNumber`), and the unique indexes on
`email` and `idNumber` make the save fail on an exact duplicate of either. -/
def savePatient (store : List Patient) (p : Patient) :
    Except String (List Patient) :=
  let doc := { p with email := jsToLower (jsTrim p.email) }
  if store.any (fun q => q.email == doc.email || q.idNumber == doc.idNumber) then
    Except.error "E11000 duplicate key error"
  else
    Except.ok (store ++ [doc])

/-- `POST /api/patients`: reject with 400 when `findOne({ $or: [{ email },
{ idNumber }] })` (on the raw request values) matches, otherwise save; a save
rejected by the unique index surfaces as 500. -/
def createPatientRoute (store : List Patient) (req : PatientRequest) :
    Nat × List Patient :=
  if store.any (fun q => q.email == req.email || q.idNumber == req.idNumber) then
    (400, store)
  else
    match savePatient store
        { firstName := req.firstName, lastName := req.lastName,
          idNumber := req.idNumber, email := req.email } with
    | Except.error _ => (500, store)
    | Except.ok store' => (201, store')

/-- `POST /api/patients/register`: 400 when a required field is falsy; 400 when
`findOne` on the lowercased+trimmed email or trimmed idNumber matches;
otherwise save the trimmed/normalized document. -/
def registerPatientRoute (store : List Patient) (req : PatientRequest) :
    Nat × List Patient :=
  if req.firstName == "" || req.lastName == "" || req.dateOfBirth == "" ||
      req.gender == "" || req.idNumber == "" || req.email == "" ||
      req.phone == "" || req.address == "" || req.city == "" then
    (400, store)
  else if store.any (fun q =>
      q.email == jsTrim (jsToLower req.email) ||
      q.idNumber == jsTrim req.idNumber) then
    (400, store)
  else
    match savePatient store
        { firstName := jsTrim req.firstName, lastName := jsTrim req.lastName,
          idNumber := jsTrim req.idNumber,
          email := jsTrim (jsToLower req.email) } with
    | Except.error _ => (500, store)
    | Except.ok store' => (201, store')

/-- The `status` enum of `appointmentSchema` (note: `'rescheduled'` is not in
it). -/
def appointmentStatusEnum : List String :=
  ["scheduled", "confirmed", "checked-in", "in-progress", "completed",
   "cancelled", "no-show"]

/-- An appointment document as a route hands it to `save()`: the
conflict-relevant fields plus the `doctor` ObjectId reference, which
`appointmentSchema` marks `required: true`.  (Documents already in a stored
`List Appointment` necessarily carried a `doctor` when they were saved.) -/
structure AppointmentDoc where
  doctor : Option Nat
  fields : Appointment
  deriving DecidableEq, Repr

/-- `document.save()` for a new appointment, restricted to the schema
validators the write routes can violate: the required `doctor` reference and
the `status` enum.  A violation throws a ValidationError (`Except.error`) and
persists nothing. -/
def saveNewAppointment (store : List Appointment) (doc : AppointmentDoc) :
    Except String (List Appointment) :=
  if doc.doctor = none then
    Except.error "Appointment validation failed: Path doctor is required."
  else if ¬ appointmentStatusEnum.contains doc.fields.status then
    Except.error "Appointment validation failed: status is not a valid enum value"
  else
    Except.ok (store ++ [doc.fields])

/-- `save()` on an updated stored appointment: the validators run again on the
whole document; `status` is the field the reschedule route changes (the stored
document's `doctor` was required at creation and is untouched). -/
def saveUpdatedAppointment (store : List Appointment) (appointmentId : Nat)
    (updated : Appointment) : Except String (List Appointment) :=
  if ¬ appointmentStatusEnum.contains updated.status then
    Except.error "Appointment validation failed: status is not a valid enum value"
  else
    Except.ok (store.map (fun a => if a.theId == appointmentId then updated else a))

/-- `POST /api/patients/:patientId/appointments/book`: 404 when the patient
lookup fails (`patientFound` abstracts it); otherwise build the appointment
with `doctorId`, `duration: 30` and `status: 'scheduled'` — but never the
schema-required `doctor` reference — and `save()` it; the route has no
conflict check, and a thrown save error surfaces as 500 with nothing
persisted.  `newId` abstracts the generated appointment id. -/
def bookAppointment (store : List Appointment) (patientFound : Bool)
    (newId doctorId appointmentDate : Nat) (appointmentTime : String) :
    Nat × List Appointment :=
  if !patientFound then
    (404, store)
  else
    match saveNewAppointment store
        { doctor := none,
          fields := { theId := newId, doctorId := doctorId,
                      appointmentDate := appointmentDate,
                      appointmentTime := appointmentTime,
                      duration := some 30, status := "scheduled" } } with
    | Except.error _ => (500, store)
    | Except.ok store' => (201, store')

/-- `PUT /appointments/:appointmentId/reschedule`: 404 when the appointment is
missing; 409 when `findOne` matches another appointment of the same doctor at
exactly the new date and time string with status scheduled or confirmed;
otherwise set the new date and time and `status = 'rescheduled'` and `save()` —
which throws on the status enum, surfacing as 500 with the store unchanged. -/
def rescheduleAppointment (store : List Appointment) (appointmentId : Nat)
    (newDate : Nat) (newTime : String) : Nat × List Appointment :=
  match store.find? (fun a => a.theId == appointmentId) with
  | none => (404, store)
  | some apt =>
    if store.any (fun a =>
        a.doctorId == apt.doctorId && a.appointmentDate == newDate &&
        a.appointmentTime == newTime &&
        (a.status == "scheduled" || a.status == "confirmed") &&
        a.theId != appointmentId) then
      (409, store)
    else
      match saveUpdatedAppointment store appointmentId
          { apt with appointmentDate := newDate, appointmentTime := newTime,
                     status := "rescheduled" } with
      | Except.error _ => (500, store)
      | Except.ok store' => (200, store')

/-- The double-booking situation claim C2 asserts is unreachable: two distinct
live appointments of the same doctor on the same date whose half-open minute
intervals overlap. -/
def hasOverlappingBooking (store : List Appointment) : Bool :=
  store.any (fun a => store.any (fun b =>
    a.theId != b.theId && a.doctorId == b.doctorId &&
    a.appointmentDate == b.appointmentDate &&
    activeStatuses.contains a.status && activeStatuses.contains b.status &&
    decide (parseTimeToMinutes a.appointmentTime <
      parseTimeToMinutes b.appointmentTime + durationOr30 b.duration) &&
    decide (parseTimeToMinutes b.appointmentTime <
      parseTimeToMinutes a.appointmentTime + durationOr30 a.duration)))

end Hospital

/-- **C6 (counterexample).** A request with no bearer token to the doctor
routes' admin-gated endpoints (e.g. `POST /api/doctors`, guarded by
`adminAuth`) is not rejected with 401: the stub middleware proceeds and
installs a hardcoded admin role that comes from no token at all.  The plain
`auth` stub behaves the same way with role `user`. -/
theorem adminAuth_counterexample :
    adminAuth none = AuthOutcome.proceed ⟨"temp-admin-id", "admin"⟩ ∧
    adminAuth none ≠ AuthOutcome.reject 401 ∧
    auth none = AuthOutcome.proceed ⟨"temp-user-id", "user"⟩ := by
  refine ⟨rfl, ?_, rfl⟩
  decide

/-- **C6 (amended).** For routes guarded by `authenticateToken` (the patient
routes), a request without a bearer token is rejected with 401, one whose
token fails verification is rejected with 403, and on success the request
proceeds with exactly the verified token payload (whose role claim downstream
handlers read); the doctor routes' `auth`/`adminAuth` testing stubs are
exempt from all of this. -/
theorem authenticateToken_spec (verify : String → Option TokenPayload)
    (authHeader : Option String) :
    (bearerToken authHeader = none →
      authenticateToken verify authHeader = AuthOutcome.reject 401) ∧
    (∀ t, bearerToken authHeader = some t → verify t = none →
      authenticateToken verify authHeader = AuthOutcome.reject 403) ∧
    (∀ t p, bearerToken authHeader = some t → verify t = some p →
      authenticateToken verify authHeader = AuthOutcome.proceed p) := by
  refine ⟨fun h => ?_, fun t ht hv => ?_, fun t p ht hv => ?_⟩
  · unfold authenticateToken
    rw [h]
  · unfold authenticateToken
    rw [ht]
    dsimp only
    rw [hv]
  · unfold authenticateToken
    rw [ht]
    dsimp only
    rw [hv]

/-- Witness for the amended C6 at a concrete verifier: missing header gives
401, a bad token 403, a good token proceeds with the token's payload. -/
theorem authenticateToken_spec_witness :
    (authenticateToken
        (fun t => if t = "good" then some ⟨"patient-1", "patient"⟩ else none)
        none = AuthOutcome.reject 401) ∧
    (authenticateToken
        (fun t => if t = "good" then some ⟨"patient-1", "patient"⟩ else none)
        (some "Bearer bad") = AuthOutcome.reject 403) ∧
    (authenticateToken
        (fun t => if t = "good" then some ⟨"patient-1", "patient"⟩ else none)
        (some "Bearer good") = AuthOutcome.proceed ⟨"patient-1", "patient"⟩) :=
  ⟨(authenticateToken_spec
      (fun t => if t = "good" then some ⟨"patient-1", "patient"⟩ else none)
      none).1 (by decide),
   (authenticateToken_spec
      (fun t => if t = "good" then some ⟨"patient-1", "patient"⟩ else none)
      (some "Bearer bad")).2.1 "bad" (by decide) (by decide),
   (authenticateToken_spec
      (fun t => if t = "good" then some ⟨"patient-1", "patient"⟩ else none)
      (some "Bearer good")).2.2 "good" ⟨"patient-1", "patient"⟩ (by decide)
     (by decide)⟩

/-- **C7 (counterexample).** A patient stored through `POST /api/patients`
with idNumber " 123" (whitespace kept: neither that route nor the schema trims
idNumber), followed by `POST /api/patients/register` with exactly the same
idNumber " 123": the register route trims the idNumber before its duplicate
query, misses the stored document, and creates a second patient with status
201 — the claim demands 400 and no new document. -/
theorem registerPatient_counterexample :
    (createPatientRoute []
        ⟨"Ann", "Li", "1990-01-01", "female", " 123", "ann@x.com", "1", "a", "c"⟩ =
      (201, [⟨"Ann", "Li", " 123", "ann@x.com"⟩])) ∧
    ((⟨"Ann", "Li", " 123", "ann@x.com"⟩ : Patient).idNumber =
      (⟨"Bob", "Wu", "1991-02-02", "male", " 123", "bob@y.com", "2", "b", "d"⟩ :
        PatientRequest).idNumber) ∧
    (registerPatientRoute [⟨"Ann", "Li", " 123", "ann@x.com"⟩]
        ⟨"Bob", "Wu", "1991-02-02", "male", " 123", "bob@y.com", "2", "b", "d"⟩ =
      (201, [⟨"Ann", "Li", " 123", "ann@x.com"⟩, ⟨"Bob", "Wu", "123", "bob@y.com"⟩])) := by
  refine ⟨?_, rfl, ?_⟩ <;> decide

/-- **C7 (amended).** `POST /api/patients` rejects with 400 (creating nothing)
any request whose raw email or idNumber equals a stored patient's; the
register route does the same for requests whose lowercased-and-trimmed email
or trimmed idNumber equals a stored value — equality of the raw idNumber is
not enough for the register route. -/
theorem patientDuplicate_spec (store : List Patient) (req : PatientRequest) :
    ((∃ q ∈ store, q.email = req.email ∨ q.idNumber = req.idNumber) →
      createPatientRoute store req = (400, store)) ∧
    ((∃ q ∈ store, q.email = jsTrim (jsToLower req.email) ∨
        q.idNumber = jsTrim req.idNumber) →
      registerPatientRoute store req = (400, store)) := by
  constructor
  · rintro ⟨q, hq, hcase⟩
    unfold createPatientRoute
    rw [if_pos]
    exact List.any_eq_true.mpr
      ⟨q, hq, by rcases hcase with h | h <;> simp [h]⟩
  · rintro ⟨q, hq, hcase⟩
    unfold registerPatientRoute
    split
    · rfl
    · rw [if_pos]
      exact List.any_eq_true.mpr
        ⟨q, hq, by rcases hcase with h | h <;> simp [h]⟩

/-- Witness for the amended C7: an exact duplicate email is rejected by both
routes on a concrete store. -/
theorem patientDuplicate_spec_witness :
    (createPatientRoute [⟨"Ann", "Li", "123", "ann@x.com"⟩]
        ⟨"Bob", "Wu", "1991-02-02", "male", "456", "ann@x.com", "2", "b", "d"⟩ =
      (400, [⟨"Ann", "Li", "123", "ann@x.com"⟩])) ∧
    (registerPatientRoute [⟨"Ann", "Li", "123", "ann@x.com"⟩]
        ⟨"Bob", "Wu", "1991-02-02", "male", "456", "ann@x.com", "2", "b", "d"⟩ =
      (400, [⟨"Ann", "Li", "123", "ann@x.com"⟩])) :=
  ⟨(patientDuplicate_spec [⟨"Ann", "Li", "123", "ann@x.com"⟩]
      ⟨"Bob", "Wu", "1991-02-02", "male", "456", "ann@x.com", "2", "b", "d"⟩).1
     ⟨⟨"Ann", "Li", "123", "ann@x.com"⟩, by decide, by decide⟩,
   (patientDuplicate_spec [⟨"Ann", "Li", "123", "ann@x.com"⟩]
      ⟨"Bob", "Wu", "1991-02-02", "male", "456", "ann@x.com", "2", "b", "d"⟩).2
     ⟨⟨"Ann", "Li", "123", "ann@x.com"⟩, by decide, by decide⟩⟩

/-- **C2 (counterexample).** Write-time conflict detection does not guard
appointment persistence.  (i) Booking doctor 7 at 09:00 on a date where the
store already holds the same doctor's scheduled 09:15 appointment is answered
500 — the validation failure on the missing `doctor` reference — with no
conflict rejection, exactly as the same request against an empty store; the
route never consults conflicts.  (ii) Rescheduling appointment 1 onto 09:00,
overlapping (but not string-equal to) the same doctor's scheduled 09:15
appointment, passes the route's conflict check (no 409) and fails 500 on the
status-enum validation instead. -/
theorem appointmentWrites_counterexample :
    (bookAppointment [⟨2, 7, 100, "09:15", some 30, "scheduled"⟩]
        true 3 7 100 "09:00" =
      (500, [⟨2, 7, 100, "09:15", some 30, "scheduled"⟩])) ∧
    (bookAppointment [] true 3 7 100 "09:00" = (500, [])) ∧
    (rescheduleAppointment
        [⟨1, 7, 99, "10:00", some 30, "scheduled"⟩,
         ⟨2, 7, 100, "09:15", some 30, "scheduled"⟩] 1 100 "09:00" =
      (500,
        [⟨1, 7, 99, "10:00", some 30, "scheduled"⟩,
         ⟨2, 7, 100, "09:15", some 30, "scheduled"⟩])) := by
  refine ⟨?_, ?_, ?_⟩ <;> decide

/-- **C2 (amended).** Through the claimed write operations, nothing is ever
persisted: the book route omits the schema-required `doctor` reference, so
every save fails validation (500, store unchanged, and never a 201); the
reschedule route either 404s, rejects with 409 exactly an existing appointment
of the same doctor at exactly the new date and the same time string with
status scheduled or confirmed, or fails its save on the status enum
(`'rescheduled'` is not a legal status), so it too never changes the store
(and never returns 200); `POST /api/appointments` (createAppointment) is not
mounted in either server entrypoint.  The no-overlap invariant is therefore
preserved trivially — the appointment collection never changes — and not by
interval conflict detection, which no operation performs. -/
theorem appointmentWrites_spec (store : List Appointment) :
    (∀ patientFound newId doctorId appointmentDate appointmentTime,
      (bookAppointment store patientFound newId doctorId appointmentDate
          appointmentTime).2 = store ∧
      (bookAppointment store patientFound newId doctorId appointmentDate
          appointmentTime).1 ≠ 201) ∧
    (∀ appointmentId newDate newTime,
      (rescheduleAppointment store appointmentId newDate newTime).2 = store ∧
      (rescheduleAppointment store appointmentId newDate newTime).1 ≠ 200) ∧
    (∀ appointmentId newDate newTime apt other,
      store.find? (fun a => a.theId == appointmentId) = some apt →
      other ∈ store → other.doctorId = apt.doctorId →
      other.appointmentDate = newDate → other.appointmentTime = newTime →
      (other.status = "scheduled" ∨ other.status = "confirmed") →
      other.theId ≠ appointmentId →
      rescheduleAppointment store appointmentId newDate newTime = (409, store)) ∧
    (hasOverlappingBooking store = false →
      (∀ patientFound newId doctorId appointmentDate appointmentTime,
        hasOverlappingBooking
          (bookAppointment store patientFound newId doctorId appointmentDate
            appointmentTime).2 = false) ∧
      (∀ appointmentId newDate newTime,
        hasOverlappingBooking
          (rescheduleAppointment store appointmentId newDate newTime).2 =
          false)) := by
  have hbook : ∀ patientFound newId doctorId appointmentDate appointmentTime,
      (bookAppointment store patientFound newId doctorId appointmentDate
          appointmentTime).2 = store ∧
      (bookAppointment store patientFound newId doctorId appointmentDate
          appointmentTime).1 ≠ 201 := by
    intro pf i d dt t
    unfold bookAppointment
    cases pf <;> simp [saveNewAppointment]
  have hres : ∀ appointmentId newDate newTime,
      (rescheduleAppointment store appointmentId newDate newTime).2 = store ∧
      (rescheduleAppointment store appointmentId newDate newTime).1 ≠ 200 := by
    intro id dt t
    unfold rescheduleAppointment
    cases hfind : store.find? (fun a => a.theId == id) with
    | none => simp
    | some apt =>
      dsimp only
      split
      · simp
      · simp [saveUpdatedAppointment, appointmentStatusEnum]
  refine ⟨hbook, hres, ?_, ?_⟩
  · intro id dt t apt other hfind hmem hdoc hdate htime hstatus hid
    unfold rescheduleAppointment
    rw [hfind]
    dsimp only
    rw [if_pos]
    exact List.any_eq_true.mpr
      ⟨other, hmem, by
        rcases hstatus with h | h <;> simp [hdoc, hdate, htime, h, hid]⟩
  · intro h
    constructor
    · intro pf i d dt t
      rw [(hbook pf i d dt t).1]
      exact h
    · intro id dt t
      rw [(hres id dt t).1]
      exact h

/-- Witness for the amended C2: on a concrete two-appointment store, an exact
duplicate reschedule target is rejected with 409, and a conflict-free store
stays conflict-free through a book request. -/
theorem appointmentWrites_spec_witness :
    (rescheduleAppointment
        [⟨1, 7, 99, "10:00", some 30, "scheduled"⟩,
         ⟨2, 7, 100, "09:00", some 30, "scheduled"⟩] 1 100 "09:00" =
      (409,
        [⟨1, 7, 99, "10:00", some 30, "scheduled"⟩,
         ⟨2, 7, 100, "09:00", some 30, "scheduled"⟩])) ∧
    (hasOverlappingBooking [⟨2, 7, 100, "09:15", some 30, "scheduled"⟩] =
      false) ∧
    (hasOverlappingBooking
        (bookAppointment [⟨2, 7, 100, "09:15", some 30, "scheduled"⟩]
          true 3 7 100 "09:00").2 = false) :=
  ⟨(appointmentWrites_spec
      [⟨1, 7, 99, "10:00", some 30, "scheduled"⟩,
       ⟨2, 7, 100, "09:00", some 30, "scheduled"⟩]).2.2.1
     1 100 "09:00"
     ⟨1, 7, 99, "10:00", some 30, "scheduled"⟩
     ⟨2, 7, 100, "09:00", some 30, "scheduled"⟩
     (by decide) (by decide) (by decide) (by decide) (by decide)
     (Or.inl (by decide)) (by decide),
   by decide,
   ((appointmentWrites_spec [⟨2, 7, 100, "09:15", some 30, "scheduled"⟩]).2.2.2
       (by decide)).1 true 3 7 100 "09:00"⟩
